import Mathlib

set_option maxRecDepth 100000

/-!
Shallow embedding of the MedEchoX firewall core (src/main.py):
the risk classifier `detect_risk`, the rewriter `rewrite_query`,
the orchestration `firewall_check` and the audit-log operations.
Python strings are Lean `String`s; `str.lower`, substring containment
(`in`) and the two `re.search` dosage patterns are embedded explicitly;
the mutable global `LOGS` list becomes explicit state passing, and a
small heap model captures the aliasing behaviour of `return LOGS[:]`.
-/

/-- The four risk tiers of the classifier (Python string literals). -/
inductive RiskLevel where
  | NONE
  | LOW
  | MEDIUM
  | HIGH
deriving DecidableEq

/-- The two actions recorded per evaluation. -/
inductive ActionType where
  | PASSTHROUGH
  | REWRITE
deriving DecidableEq

/-- Python `str.lower()` restricted to ASCII, applied characterwise. -/
def py_lower (s : String) : String :=
  ⟨s.data.map Char.toLower⟩

/-- If `p` is a leading part of `l`, return the remaining characters. -/
def stripLit : List Char → List Char → Option (List Char)
  | [], l => some l
  | _ :: _, [] => none
  | p :: ps, c :: cs => if c = p then stripLit ps cs else none

/-- Contiguous-sublist test: Python `needle in hay` on the char lists. -/
def containsSub (n : List Char) : List Char → Bool
  | [] => (stripLit n []).isSome
  | c :: cs => (stripLit n (c :: cs)).isSome || containsSub n cs

/-- Python `needle in hay` for strings. -/
def strContains (needle hay : String) : Bool :=
  containsSub needle.toList hay.toList

/-- A word character in the sense of the `\b` regex boundary (ASCII `\w`). -/
def isWordChar (c : Char) : Bool :=
  c.isAlphanum || c = '_'

/-- A whitespace character in the sense of the regex `\s` (ASCII). -/
def isPySpace (c : Char) : Bool :=
  c = ' ' || c = '\t' || c = '\n' || c = '\r' || c = '\x0b' || c = '\x0c'

/-- True when the next character is not a word character (so a `\b`
word boundary sits here after a word character). -/
def noWordNext : List Char → Bool
  | [] => true
  | c :: _ => !isWordChar c

/-- The unit alternation of a dosage pattern followed by `\b`:
some unit literal is a leading part of `l` with a word boundary after it. -/
def unitAt (units : List String) (l : List Char) : Bool :=
  units.any fun u =>
    match stripLit u.toList l with
    | some rest => noWordNext rest
    | none => false

/-- `\s*` then the unit alternation then `\b`.  The units all start with a
letter, so consuming every whitespace character is exhaustive. -/
def afterQty (units : List String) (l : List Char) : Bool :=
  unitAt units (l.dropWhile isPySpace)

/-- The `\d+` alternative of the quantity group (no boundary required),
then `\s*` and a unit.  Units never start with a digit, so consuming the
whole digit run is exhaustive. -/
def digitAlt (units : List String) (l : List Char) : Bool :=
  match l with
  | [] => false
  | c :: _ => c.isDigit && afterQty units (l.dropWhile Char.isDigit)

/-- A `\bword\b` alternative of the quantity group at this position:
`prevW` tells whether the preceding character was a word character. -/
def wordAltB (units : List String) (w : String) (prevW : Bool) (l : List Char) : Bool :=
  !prevW &&
    match stripLit w.toList l with
    | some rest => noWordNext rest && afterQty units rest
    | none => false

/-- A `\bword` alternative (no trailing boundary, as in `\bfull`). -/
def wordAltNoB (units : List String) (w : String) (prevW : Bool) (l : List Char) : Bool :=
  !prevW &&
    match stripLit w.toList l with
    | some rest => afterQty units rest
    | none => false

/-- The whole quantity pattern anchored at this position. -/
def qtyAt (wordsB wordsN units : List String) (prevW : Bool) (l : List Char) : Bool :=
  digitAlt units l ||
    wordsB.any (fun w => wordAltB units w prevW l) ||
    wordsN.any (fun w => wordAltNoB units w prevW l)

/-- `re.search` of the quantity pattern: try every start position,
threading whether the previous character was a word character. -/
def qtySearch (wordsB wordsN units : List String) : Bool → List Char → Bool
  | prevW, [] => qtyAt wordsB wordsN units prevW []
  | prevW, c :: cs =>
      qtyAt wordsB wordsN units prevW (c :: cs) ||
        qtySearch wordsB wordsN units (isWordChar c) cs

/-- The classifier dosage pattern of `detect_risk` (src/main.py line 72):
`(\d+|\bhalf\b|\btwo\b|\bthree\b|\bfour\b|\bfull)\s*(mg|milligram|dose|unit|tablet|pill|ml|ounce|capsule|spoon)\b`. -/
def quantity_regex (s : String) : Bool :=
  qtySearch ["half", "two", "three", "four"] ["full"]
    ["mg", "milligram", "dose", "unit", "tablet", "pill", "ml", "ounce", "capsule", "spoon"]
    false s.toList

/-- The rewriter dosage pattern of `rewrite_query` (src/main.py line 129):
`(\d+|\bhalf\b|\btwo\b|\bfull)\s*(mg|milligram|dose|unit|tablet|pill)\b`. -/
def rewrite_quantity_regex (s : String) : Bool :=
  qtySearch ["half", "two"] ["full"]
    ["mg", "milligram", "dose", "unit", "tablet", "pill"]
    false s.toList

/-- `self_harm_keywords` of `detect_risk`. -/
def self_harm_keywords : List String :=
  ["overdose", "kill myself", "self harm", "suicide", "hurt myself", "want to die",
   "poisoning", "end my life", "lethal", "fatal", "commit suicide", "i hate living",
   "ending it", "die now"]

/-- `high_risk_keywords` of `detect_risk` (note the upper-case `IV`). -/
def high_risk_keywords : List String :=
  ["inject", "how much", "combine meds", "change my dose", "take this",
   "skip dose", "stop taking", "adjust dose", "bypass", "prescription drug",
   "chest pain", "stroke", "heart attack", "emergency", "faint", "unresponsive",
   "heroin", "fentanyl", "cocaine", "meth", "opioid", "abuse", "legal limit",
   "liver failure", "respiratory distress", "IV", "injection"]

/-- `medium_risk_keywords` of `detect_risk`. -/
def medium_risk_keywords : List String :=
  ["diagnose", "is this", "what tablet", "cure for", "prescription for", "should i stop",
   "my symptoms mean", "symptom of", "serious", "chronic fatigue", "anxiety attack",
   "depression diagnosis", "what is this lump", "is it cancer", "tumor", "vaccine side effect"]

/-- `low_risk_keywords` of `detect_risk`. -/
def low_risk_keywords : List String :=
  ["headache", "fever", "diet", "vitamin", "side effects", "mild symptoms", "is xyz safe",
   "workout", "sleep schedule", "protein", "creatine", "vitamin c", "zinc", "flu shot",
   "stomach ache", "sore throat", "cramps", "common cold"]

/-- Reason string of the self-harm branch. -/
def SELF_HARM_REASON : String :=
  "Query indicates immediate suicide or self-harm intent. Emergency intervention required."

/-- Reason string of the dosage-pattern branch. -/
def QUANTITY_REASON : String :=
  "Directly asking for or referencing a specific dosage or quantity of medication."

/-- Reason string of the high-risk keyword branch. -/
def HIGH_REASON : String :=
  "Attempting to self-medicate, asking for dosage adjustment, or reporting acute symptoms."

/-- Reason string of the medium-risk branch. -/
def MEDIUM_REASON : String :=
  "Querying for self-diagnosis, seeking specific treatment, or advice on changing medication regimens."

/-- Reason string of the low-risk branch. -/
def LOW_REASON : String :=
  "Seeking general health information or common, non-acute advice."

/-- Reason string of the default branch. -/
def NONE_REASON : String :=
  "General informational query."

/-- `detect_risk` (src/main.py lines 55-106): ordered first-match cascade. -/
def detect_risk (query : String) : RiskLevel × String :=
  let lower_query := py_lower query
  if self_harm_keywords.any (fun kw => strContains kw lower_query) then
    (RiskLevel.HIGH, SELF_HARM_REASON)
  else if quantity_regex lower_query then
    (RiskLevel.HIGH, QUANTITY_REASON)
  else if high_risk_keywords.any (fun kw => strContains kw lower_query) then
    (RiskLevel.HIGH, HIGH_REASON)
  else if medium_risk_keywords.any (fun kw => strContains kw lower_query) then
    (RiskLevel.MEDIUM, MEDIUM_REASON)
  else if low_risk_keywords.any (fun kw => strContains kw lower_query) then
    (RiskLevel.LOW, LOW_REASON)
  else
    (RiskLevel.NONE, NONE_REASON)

/-- The exact-match override table `REWRITE_MODEL_OUTPUT` (src/main.py lines 35-42). -/
def REWRITE_MODEL_OUTPUT : List (String × String) :=
  [("i took two paracetamol tablets, should i take one more?",
    "What are the specific pharmacological risks, maximum safe daily dosages, and symptoms of toxicity associated with common over-the-counter pain medications like paracetamol?"),
   ("what dose of insulin should i inject if my blood sugar is 300?",
    "What are the physiological effects of incorrectly self-administering insulin, and what are the established protocols for safe, supervised dosage management under the care of an endocrinologist?"),
   ("i have sudden chest pain and feel faint, what should i do now?",
    "Describe the immediate first aid protocols and emergency response steps for someone experiencing acute symptoms like chest pain and syncope (fainting), emphasizing time-sensitive medical intervention.")]

/-- Python dict lookup on the association list (keys are distinct). -/
def tableLookup : List (String × String) → String → Option String
  | [], _ => none
  | (k, v) :: rest, q => if q = k then some v else tableLookup rest q

/-- Self-harm keywords of the rewriter (src/main.py line 124). -/
def rewrite_self_harm_keywords : List String :=
  ["overdose", "hurt", "myself", "suicide", "die", "poisoning", "end my life"]

/-- Dosage keywords of the rewriter (src/main.py line 129). -/
def dose_keywords : List String :=
  ["insulin", "dose", "units", "much", "take"]

/-- Acute-symptom keywords of the rewriter (src/main.py line 133). -/
def emergency_keywords : List String :=
  ["chest pain", "stroke", "heart attack", "faint", "unresponsive"]

/-- Diagnosis keywords of the rewriter (src/main.py line 141). -/
def diagnosis_keywords : List String :=
  ["diagnose", "is it", "lump", "tumor"]

/-- The emergency-hotline-and-resources message. -/
def HOTLINE_MSG : String :=
  "Provide a list of immediate, international emergency suicide prevention hotlines and resources, formatted clearly as a medical emergency warning."

/-- The self-adjusting-dosage risks message. -/
def DOSE_MSG : String :=
  "What are the critical dangers and risks associated with self-adjusting medication dosages without professional medical supervision?"

/-- The emergency-recognition message. -/
def EMERGENCY_MSG : String :=
  "What are the signs of a medical emergency, such as chest pain or stroke symptoms, and what immediate steps should a person take?"

/-- The generic high-risk educational rewrite. -/
def HIGH_GENERIC_MSG : String :=
  "Provide general educational information regarding the medical topic of the original query, ensuring to include a strong disclaimer to consult a healthcare professional."

/-- The proper-diagnosis procedure message. -/
def DIAGNOSIS_MSG : String :=
  "What information can you provide about common conditions related to the original query, and what is the proper procedure for getting a professional diagnosis?"

/-- The generic medium-risk rewrite. -/
def MEDIUM_GENERIC_MSG : String :=
  "What are the general facts and safe medical resources related to the user\x27s health concern?"

/-- `rewrite_query` (src/main.py lines 108-147): exact-match override first,
then the heuristic fallback keyed on the risk level. -/
def rewrite_query (original : String) (risk_level : RiskLevel) : String :=
  let low_original := py_lower original
  match tableLookup REWRITE_MODEL_OUTPUT low_original with
  | some v => v
  | none =>
    if risk_level = RiskLevel.HIGH then
      if rewrite_self_harm_keywords.any (fun kw => strContains kw low_original) then
        HOTLINE_MSG
      else if rewrite_quantity_regex low_original ||
          dose_keywords.any (fun kw => strContains kw low_original) then
        DOSE_MSG
      else if emergency_keywords.any (fun kw => strContains kw low_original) then
        EMERGENCY_MSG
      else
        HIGH_GENERIC_MSG
    else if risk_level = RiskLevel.MEDIUM then
      if diagnosis_keywords.any (fun kw => strContains kw low_original) then
        DIAGNOSIS_MSG
      else
        MEDIUM_GENERIC_MSG
    else
      original

/-- One audit-log record (`LogEntry`); the timestamp is an abstract stamp
supplied by the caller of the orchestration step. -/
structure LogEntry where
  original_query : String
  safe_query : String
  risk_level : RiskLevel
  action : ActionType
  timestamp : Nat
  reason : String
deriving DecidableEq

/-- `firewall_check` (src/main.py lines 165-196): classify, rewrite when the
risk is not NONE, derive the action, append the record to the log, return it.
The mutable global `LOGS` is passed and returned explicitly. -/
def firewall_check (logs : List LogEntry) (query : String) (now : Nat) :
    LogEntry × List LogEntry :=
  let rr := detect_risk query
  let p : ActionType × String :=
    if rr.1 = RiskLevel.NONE then
      (ActionType.PASSTHROUGH, query)
    else
      let safe := rewrite_query query rr.1
      (if safe ≠ query then ActionType.REWRITE else ActionType.PASSTHROUGH, safe)
  let entry : LogEntry :=
    { original_query := query, safe_query := p.2, risk_level := rr.1,
      action := p.1, timestamp := now, reason := rr.2 }
  (entry, logs ++ [entry])

/-- `get_logs` (src/main.py lines 199-202) as a pure read of the log value. -/
def get_logs (logs : List LogEntry) : List LogEntry := logs

/-- N sequential evaluate calls: returns the records handed back to the
callers, in call order, together with the final log. -/
def runCalls (logs : List LogEntry) : List (String × Nat) → List LogEntry × List LogEntry
  | [] => ([], logs)
  | (q, t) :: rest =>
      let r := firewall_check logs q t
      let rec' := runCalls r.2 rest
      (r.1 :: rec'.1, rec'.2)

/-- `PyHeap`: the part of the Python object store relevant to `get_logs`;
each cell is a list object, and `LOGS` lives at address 0. -/
structure PyHeap where
  cells : List (List LogEntry)
deriving DecidableEq

/-- Read the list object at an address (unallocated reads as empty). -/
def readCell (h : PyHeap) (a : Nat) : List LogEntry :=
  (h.cells.get? a).getD []

/-- Overwrite the contents of the list object at an address: this models
any in-place mutation (append, remove, reorder) the caller performs. -/
def writeCell (h : PyHeap) (a : Nat) (v : List LogEntry) : PyHeap :=
  ⟨h.cells.set a v⟩

/-- Allocate a fresh list object holding `v`, returning its address. -/
def allocCell (h : PyHeap) (v : List LogEntry) : Nat × PyHeap :=
  (h.cells.length, ⟨h.cells ++ [v]⟩)

/-- The address of the global `LOGS` list. -/
def LOGS_ADDR : Nat := 0

/-- `get_logs` at the heap level: `return LOGS[:]` allocates a fresh list
object holding a copy of the current log contents and returns it. -/
def get_logs_ref (h : PyHeap) : Nat × PyHeap :=
  allocCell h (readCell h LOGS_ADDR)

theorem firewall_check_snd (logs : List LogEntry) (q : String) (t : Nat) :
    (firewall_check logs q t).2 = logs ++ [(firewall_check logs q t).1] := rfl

theorem runCalls_log_eq (inputs : List (String × Nat)) :
    ∀ logs : List LogEntry, (runCalls logs inputs).2 = logs ++ (runCalls logs inputs).1 := by
  induction inputs with
  | nil => intro logs; simp [runCalls]
  | cons p rest ih =>
      intro logs
      obtain ⟨q, t⟩ := p
      show (runCalls (firewall_check logs q t).2 rest).2 = _
      rw [ih]
      show (firewall_check logs q t).2 ++ (runCalls (firewall_check logs q t).2 rest).1 =
        logs ++ ((firewall_check logs q t).1 :: (runCalls (firewall_check logs q t).2 rest).1)
      rw [firewall_check_snd]
      simp

theorem runCalls_length (inputs : List (String × Nat)) :
    ∀ logs : List LogEntry, (runCalls logs inputs).1.length = inputs.length := by
  induction inputs with
  | nil => intro logs; rfl
  | cons p rest ih =>
      intro logs
      obtain ⟨q, t⟩ := p
      show ((firewall_check logs q t).1 :: (runCalls (firewall_check logs q t).2 rest).1).length
        = rest.length + 1
      simp [ih]

theorem list_get_append_length {α : Type} (l : List α) (x : α) :
    (l ++ [x]).get? l.length = some x := by
  induction l with
  | nil => rfl
  | cons c cs ih => exact ih

theorem list_set_append_length {α : Type} (l : List α) (x v : α) :
    (l ++ [x]).set l.length v = l ++ [v] := by
  induction l with
  | nil => rfl
  | cons c cs ih => exact congrArg (List.cons c) ih

theorem toNat_toLower_of_upper {c : Char} (h65 : 65 ≤ c.toNat) (h90 : c.toNat ≤ 90) :
    (Char.toLower c).toNat = c.toNat + 32 := by
  have hv : (c.toNat + 32).isValidChar := Or.inl (by omega)
  show (if c.toNat ≥ 65 ∧ c.toNat ≤ 90 then Char.ofNat (c.toNat + 32) else c).toNat
    = c.toNat + 32
  rw [if_pos ⟨h65, h90⟩, Char.ofNat, dif_pos hv]
  rfl

theorem toLower_ne_upper_I (c : Char) : Char.toLower c ≠ 'I' := by
  intro h
  by_cases hc : 65 ≤ c.toNat ∧ c.toNat ≤ 90
  · have h1 := toNat_toLower_of_upper hc.1 hc.2
    rw [h] at h1
    have h2 : (73 : Nat) = c.toNat + 32 := h1
    omega
  · have hl : Char.toLower c = c := by
      show (if c.toNat ≥ 65 ∧ c.toNat ≤ 90 then Char.ofNat (c.toNat + 32) else c) = c
      rw [if_neg hc]
    rw [hl] at h
    subst h
    exact hc (by decide)

theorem containsSub_IV_of_lowered (l : List Char) :
    containsSub ['I', 'V'] (l.map Char.toLower) = false := by
  induction l with
  | nil => rfl
  | cons c cs ih =>
      have h1 : stripLit ['I', 'V'] (Char.toLower c :: cs.map Char.toLower) = none := by
        show (if Char.toLower c = 'I' then stripLit ['V'] (cs.map Char.toLower) else none) = none
        rw [if_neg (toLower_ne_upper_I c)]
      show ((stripLit ['I', 'V'] (Char.toLower c :: cs.map Char.toLower)).isSome
          || containsSub ['I', 'V'] (cs.map Char.toLower)) = false
      rw [h1, ih]
      rfl

/-- C1: for every evaluation record produced by the pipeline, the action is
PASSTHROUGH if and only if the safe query equals the original query. -/
theorem c1_passthrough_iff_unchanged (logs : List LogEntry) (q : String) (t : Nat) :
    (firewall_check logs q t).1.action = ActionType.PASSTHROUGH ↔
      (firewall_check logs q t).1.safe_query = (firewall_check logs q t).1.original_query := by
  by_cases h0 : (detect_risk q).1 = RiskLevel.NONE
  · simp [firewall_check, h0]
  · by_cases h1 : rewrite_query q (detect_risk q).1 = q
    · simp [firewall_check, h0, h1]
    · simp [firewall_check, h0, h1]

/-- C2 counterexample: the query `lethal` contains the classifier self-harm
phrase `lethal` and classifies HIGH, but rewriting at HIGH returns the
generic high-risk message, not the emergency-hotline message. -/
theorem c2_lethal_counterexample :
    self_harm_keywords.any (fun kw => strContains kw (py_lower "lethal")) = true ∧
    detect_risk "lethal" = (RiskLevel.HIGH, SELF_HARM_REASON) ∧
    rewrite_query "lethal" RiskLevel.HIGH = HIGH_GENERIC_MSG ∧
    HIGH_GENERIC_MSG ≠ HOTLINE_MSG := by
  refine ⟨by decide, by decide, by decide, by decide⟩

/-- C2 amended: a query containing a classifier self-harm phrase always
classifies HIGH; rewriting it at HIGH yields the emergency-hotline message
provided the query also contains one of the rewriter self-harm keywords
and its lower-cased form is not an override-table key. -/
theorem c2_self_harm_high (q : String)
    (h : self_harm_keywords.any (fun kw => strContains kw (py_lower q)) = true) :
    (detect_risk q).1 = RiskLevel.HIGH ∧
    (tableLookup REWRITE_MODEL_OUTPUT (py_lower q) = none →
      rewrite_self_harm_keywords.any (fun kw => strContains kw (py_lower q)) = true →
      rewrite_query q RiskLevel.HIGH = HOTLINE_MSG) := by
  constructor
  · simp [detect_risk, h]
  · intro ht hr
    simp [rewrite_query, ht, hr]

theorem c2_self_harm_high_witness :
    self_harm_keywords.any (fun kw => strContains kw (py_lower "i want to die")) = true ∧
    (detect_risk "i want to die").1 = RiskLevel.HIGH ∧
    rewrite_query "i want to die" RiskLevel.HIGH = HOTLINE_MSG := by
  refine ⟨by decide, (c2_self_harm_high "i want to die" (by decide)).1,
    (c2_self_harm_high "i want to die" (by decide)).2 (by decide) (by decide)⟩

/-- C3: the paracetamol query is classified NONE (the quantity regex needs
the unit right after the quantity word, and `tablets` also fails the trailing
word boundary), so the pipeline passes it through and never reaches the
override table — even though the table holds exactly this key. -/
theorem c3_paracetamol_query_dead_table_entry :
    detect_risk "i took two paracetamol tablets, should i take one more?" =
      (RiskLevel.NONE, NONE_REASON) ∧
    (firewall_check [] "i took two paracetamol tablets, should i take one more?" 0).1.action =
      ActionType.PASSTHROUGH ∧
    (firewall_check [] "i took two paracetamol tablets, should i take one more?" 0).1.safe_query =
      "i took two paracetamol tablets, should i take one more?" ∧
    (tableLookup REWRITE_MODEL_OUTPUT
      (py_lower "i took two paracetamol tablets, should i take one more?")).isSome = true := by
  refine ⟨by decide, by decide, by decide, by decide⟩

/-- C4: whenever the lower-cased query is an override-table key, the rewrite
function returns the table value verbatim, for every risk level. -/
theorem c4_table_precedence (q : String) (lvl : RiskLevel) (v : String)
    (h : tableLookup REWRITE_MODEL_OUTPUT (py_lower q) = some v) :
    rewrite_query q lvl = v := by
  simp [rewrite_query, h]

theorem c4_table_precedence_witness :
    tableLookup REWRITE_MODEL_OUTPUT
      (py_lower "What dose of insulin should I inject if my blood sugar is 300?") =
      some "What are the physiological effects of incorrectly self-administering insulin, and what are the established protocols for safe, supervised dosage management under the care of an endocrinologist?" ∧
    rewrite_query "What dose of insulin should I inject if my blood sugar is 300?" RiskLevel.NONE =
      "What are the physiological effects of incorrectly self-administering insulin, and what are the established protocols for safe, supervised dosage management under the care of an endocrinologist?" := by
  refine ⟨by decide, c4_table_precedence _ RiskLevel.NONE _ (by decide)⟩

/-- C5: every query whose lower-cased form matches the classifier quantity
pattern is classified HIGH (either by the self-harm rule that precedes the
pattern, or by the pattern itself). -/
theorem c5_quantity_implies_high (q : String)
    (h : quantity_regex (py_lower q) = true) :
    (detect_risk q).1 = RiskLevel.HIGH := by
  cases hb : self_harm_keywords.any (fun kw => strContains kw (py_lower q)) with
  | true => simp [detect_risk, hb]
  | false => simp [detect_risk, hb, h]

theorem c5_quantity_implies_high_witness :
    quantity_regex (py_lower "take 50 mg") = true ∧
    (detect_risk "take 50 mg").1 = RiskLevel.HIGH :=
  ⟨by decide, c5_quantity_implies_high "take 50 mg" (by decide)⟩

/-- C6: the high-risk keyword `IV` is compared in upper case against the
lower-cased query, so it can never match any query, in any letter case;
in particular the query `I need an IV` is classified NONE, not HIGH. -/
theorem c6_iv_keyword_never_matches :
    (∀ q : String, strContains "IV" (py_lower q) = false) ∧
    strContains "iv" (py_lower "I need an IV") = true ∧
    detect_risk "I need an IV" = (RiskLevel.NONE, NONE_REASON) := by
  refine ⟨fun q => containsSub_IV_of_lowered q.data, by decide, by decide⟩

/-- C7: classification and rewriting are total: on every input string (the
empty string included) each returns exactly one result, and a second
classify-plus-rewrite pass on the rewritten query also returns exactly one
result (the rewriter has no recursive call). -/
theorem c7_totality (q : String) (lvl : RiskLevel) :
    (∃! p : RiskLevel × String, detect_risk q = p) ∧
    (∃! s : String, rewrite_query q lvl = s) ∧
    (∃! s2 : String,
      rewrite_query (rewrite_query q lvl) (detect_risk (rewrite_query q lvl)).1 = s2) :=
  ⟨⟨detect_risk q, rfl, fun _ h => h.symm⟩,
   ⟨rewrite_query q lvl, rfl, fun _ h => h.symm⟩,
   ⟨rewrite_query (rewrite_query q lvl) (detect_risk (rewrite_query q lvl)).1, rfl,
     fun _ h => h.symm⟩⟩

/-- C8: after N sequential evaluate calls from the empty log, reading the
history returns exactly the N records handed back to the callers, in call
order; each evaluate call only appends to the existing log. -/
theorem c8_log_ordering (inputs : List (String × Nat)) :
    get_logs (runCalls [] inputs).2 = (runCalls [] inputs).1 ∧
    (runCalls [] inputs).1.length = inputs.length ∧
    ∀ (logs : List LogEntry) (q : String) (t : Nat),
      (firewall_check logs q t).2 = logs ++ [(firewall_check logs q t).1] := by
  refine ⟨?_, runCalls_length inputs [], fun logs q t => firewall_check_snd logs q t⟩
  have h := runCalls_log_eq inputs []
  simpa [get_logs] using h

/-- C9: the history endpoint returns a snapshot — a freshly allocated list
object holding the log contents — so overwriting the returned object with
any value (adding, removing or reordering elements) leaves the live log
cell unchanged. -/
theorem c9_snapshot_no_aliasing (h : PyHeap) (hne : h.cells ≠ []) (v : List LogEntry) :
    readCell (get_logs_ref h).2 (get_logs_ref h).1 = readCell h LOGS_ADDR ∧
    readCell (writeCell (get_logs_ref h).2 (get_logs_ref h).1 v) LOGS_ADDR =
      readCell h LOGS_ADDR := by
  obtain ⟨cells⟩ := h
  constructor
  · show ((cells ++ [readCell ⟨cells⟩ LOGS_ADDR]).get? cells.length).getD [] = _
    rw [list_get_append_length]
    rfl
  · show (((cells ++ [readCell ⟨cells⟩ LOGS_ADDR]).set cells.length v).get? LOGS_ADDR).getD []
      = readCell ⟨cells⟩ LOGS_ADDR
    rw [list_set_append_length]
    cases cells with
    | nil => exact absurd rfl hne
    | cons c cs => rfl

theorem c9_snapshot_no_aliasing_witness :
    (PyHeap.mk [[]]).cells ≠ [] ∧
    (readCell (get_logs_ref ⟨[[]]⟩).2 (get_logs_ref ⟨[[]]⟩).1 = readCell ⟨[[]]⟩ LOGS_ADDR ∧
      readCell
        (writeCell (get_logs_ref ⟨[[]]⟩).2 (get_logs_ref ⟨[[]]⟩).1
          [⟨"x", "x", RiskLevel.NONE, ActionType.PASSTHROUGH, 0, "r"⟩])
        LOGS_ADDR = readCell ⟨[[]]⟩ LOGS_ADDR) :=
  ⟨by simp, c9_snapshot_no_aliasing ⟨[[]]⟩ (by simp)
    [⟨"x", "x", RiskLevel.NONE, ActionType.PASSTHROUGH, 0, "r"⟩]⟩

/-- C10: outside the override table, a query containing a rewriter self-harm
keyword rewrites at HIGH to the hotline message; that message itself
classifies HIGH (it contains `suicide`) and rewrites to itself, so a second
pipeline pass leaves the safe output unchanged. -/
theorem c10_hotline_fixed_point (q : String)
    (ht : tableLookup REWRITE_MODEL_OUTPUT (py_lower q) = none)
    (hs : rewrite_self_harm_keywords.any (fun kw => strContains kw (py_lower q)) = true) :
    rewrite_query q RiskLevel.HIGH = HOTLINE_MSG ∧
    (detect_risk HOTLINE_MSG).1 = RiskLevel.HIGH ∧
    rewrite_query HOTLINE_MSG RiskLevel.HIGH = HOTLINE_MSG := by
  refine ⟨?_, by decide, by decide⟩
  simp [rewrite_query, ht, hs]

theorem c10_hotline_fixed_point_witness :
    tableLookup REWRITE_MODEL_OUTPUT (py_lower "i might hurt myself tonight") = none ∧
    rewrite_self_harm_keywords.any
      (fun kw => strContains kw (py_lower "i might hurt myself tonight")) = true ∧
    rewrite_query "i might hurt myself tonight" RiskLevel.HIGH = HOTLINE_MSG :=
  ⟨by decide, by decide,
    (c10_hotline_fixed_point "i might hurt myself tonight" (by decide) (by decide)).1⟩
